import Mathlib

/-
Verification of the autologin captive-portal client (src/autologin/__main__.py).

The development shallowly embeds the probe / dispatch / login logic of the
program.  Outbound HTTP is modelled by an oracle (a pair of functions from
request data to an optional response, where a missing response stands for a
raised requests.RequestException), HTML parsing by an abstract document value
carried on each response (the output of BeautifulSoup on the response body),
and Python exceptions by an explicit error type threaded through the
translation.  URL resolution follows the algorithm of CPython
urllib.parse.urljoin.
-/

namespace Autologin

/-! ### Python string helpers -/

/-- Whitespace characters stripped by the Python str.strip method
(the ASCII ones; the probe bodies involved are ASCII). -/
def pyWhitespace (c : Char) : Bool :=
  c = ' ' || c = '\t' || c = '\n' || c = '\r' || c = '\x0b' || c = '\x0c'

/-- Model of the Python str.strip method with no argument: remove leading and
trailing whitespace. -/
def pyStrip (s : String) : String :=
  ⟨((s.toList.dropWhile pyWhitespace).reverse.dropWhile pyWhitespace).reverse⟩

/-- Split a character list at the first occurrence of a separator, returning
none when the separator does not occur. -/
def splitFirst (sep : Char) : List Char → Option (List Char × List Char)
  | [] => none
  | c :: cs =>
      if c = sep then some ([], cs)
      else
        match splitFirst sep cs with
        | none => none
        | some (a, b) => some (c :: a, b)

/-- Model of the Python str.split method with a one-character separator:
splits at every occurrence, keeping empty pieces. -/
def splitAll (sep : Char) : List Char → List (List Char)
  | [] => [[]]
  | c :: cs =>
      if c = sep then [] :: splitAll sep cs
      else
        match splitAll sep cs with
        | [] => [[c]]
        | a :: rest => (c :: a) :: rest

/-- Join character lists with a separator character, the inverse direction of
splitAll (Python sep.join). -/
def joinWith (sep : Char) : List (List Char) → List Char
  | [] => []
  | [a] => a
  | a :: rest => a ++ sep :: joinWith sep rest

/-! ### URL splitting and joining, after CPython urllib.parse

The params component of the six-tuple returned by urlparse (a trailing
semicolon part of the last path segment) is folded into the path here: none of
the URLs handled by the program contain a semicolon, and with empty params the
five-component algorithm below coincides with the CPython six-component one. -/

/-- The five components produced by urlsplit. -/
structure UrlParts where
  scheme : String
  netloc : String
  path : String
  query : String
  fragment : String
deriving DecidableEq, Repr

/-- Characters allowed in a URL scheme after the leading letter. -/
def isSchemeChar (c : Char) : Bool :=
  c.isAlpha || c.isDigit || c = '+' || c = '-' || c = '.'

/-- Try to take a scheme prefix off a URL: the text before the first colon,
when it starts with a letter and consists of scheme characters; the scheme is
lowercased as in CPython. -/
def takeScheme (l : List Char) : Option (List Char × List Char) :=
  match splitFirst ':' l with
  | none => none
  | some (pre, rest) =>
      match pre with
      | [] => none
      | c :: cs =>
          if c.isAlpha && (c :: cs).all isSchemeChar then
            some ((c :: cs).map Char.toLower, rest)
          else none

/-- Characters ending the netloc component. -/
def endsNetloc (c : Char) : Bool :=
  c = '/' || c = '?' || c = '#'

/-- Model of urllib.parse.urlsplit with a default scheme: scheme, then a
netloc after a double slash, then the fragment after the first hash, then the
query after the first question mark; the remainder is the path. -/
def urlsplit (url : String) (defaultScheme : String) : UrlParts :=
  let l := url.toList
  let sr :=
    match takeScheme l with
    | some (s, r) => (s, r)
    | none => (defaultScheme.toList, l)
  let scheme := sr.1
  let nr :=
    if sr.2.take 2 = ['/', '/'] then
      ((sr.2.drop 2).takeWhile (fun c => !endsNetloc c),
       (sr.2.drop 2).dropWhile (fun c => !endsNetloc c))
    else ([], sr.2)
  let fr :=
    match splitFirst '#' nr.2 with
    | some (a, b) => (a, b)
    | none => (nr.2, [])
  let pq :=
    match splitFirst '?' fr.1 with
    | some (a, b) => (a, b)
    | none => (fr.1, [])
  ⟨⟨scheme⟩, ⟨nr.1⟩, ⟨pq.1⟩, ⟨pq.2⟩, ⟨fr.2⟩⟩

/-- Model of urllib.parse.urlunsplit. -/
def urlunsplit (p : UrlParts) : String :=
  let url := p.path
  let url :=
    if p.netloc ≠ "" ∨ url.toList.take 2 = ['/', '/'] then
      let u2 := if url ≠ "" ∧ url.toList.head? ≠ some '/' then "/" ++ url else url
      "//" ++ p.netloc ++ u2
    else url
  let url := if p.scheme ≠ "" then p.scheme ++ ":" ++ url else url
  let url := if p.query ≠ "" then url ++ "?" ++ p.query else url
  if p.fragment ≠ "" then url ++ "#" ++ p.fragment else url

/-- Schemes for which urljoin performs relative resolution (the CPython
uses_relative list). -/
def usesRelative : List String :=
  ["", "ftp", "http", "gopher", "nntp", "imap", "wais", "file", "https",
   "shttp", "mms", "prospero", "rtsp", "rtspu", "sftp", "svn", "svn+ssh",
   "ws", "wss"]

/-- Schemes carrying a network location (the CPython uses_netloc list). -/
def usesNetloc : List String :=
  ["", "ftp", "http", "gopher", "nntp", "telnet", "imap", "wais", "file",
   "mms", "https", "shttp", "snews", "prospero", "rtsp", "rtspu", "rsync",
   "svn", "svn+ssh", "sftp", "nfs", "git", "git+ssh", "ws", "wss",
   "itms-services"]

/-- Resolve dot segments as the CPython urljoin loop does: a double dot pops
the accumulated list (silently on an empty list), a single dot is skipped,
everything else is appended. -/
def resolveSegs (segs : List (List Char)) : List (List Char) :=
  segs.foldl
    (fun acc seg =>
      if seg = ['.', '.'] then acc.dropLast
      else if seg = ['.'] then acc
      else acc ++ [seg])
    []

/-- Filter empty segments out of the middle of a segment list, keeping the
first and last elements (the CPython segments[1:-1] = filter(None, ...)). -/
def filterMiddle : List (List Char) → List (List Char)
  | [] => []
  | a :: rest =>
      a :: ((rest.dropLast.filter (fun s => !s.isEmpty))
        ++ rest.drop (rest.length - 1))

/-- Model of urllib.parse.urljoin, following the CPython algorithm with the
params component folded into the path. -/
def urljoin (base url : String) : String :=
  if base = "" then url
  else if url = "" then base
  else
    let b := urlsplit base ""
    let u := urlsplit url b.scheme
    if u.scheme ≠ b.scheme ∨ ¬ usesRelative.contains u.scheme then url
    else
      if usesNetloc.contains u.scheme ∧ u.netloc ≠ "" then
        urlunsplit ⟨u.scheme, u.netloc, u.path, u.query, u.fragment⟩
      else
        let netloc := if usesNetloc.contains u.scheme then b.netloc else u.netloc
        if u.path = "" then
          let q := if u.query = "" then b.query else u.query
          urlunsplit ⟨u.scheme, netloc, b.path, q, u.fragment⟩
        else
          let baseParts0 := splitAll '/' b.path.toList
          let baseParts :=
            if baseParts0.getLast? = some [] then baseParts0
            else baseParts0.dropLast
          let segments :=
            if u.path.toList.head? = some '/' then splitAll '/' u.path.toList
            else filterMiddle (baseParts ++ splitAll '/' u.path.toList)
          let resolved := resolveSegs segments
          let resolved :=
            if segments.getLast? = some ['.'] ∨ segments.getLast? = some ['.', '.']
            then resolved ++ [[]]
            else resolved
          let joined := joinWith '/' resolved
          let path : List Char := if joined = [] then ['/'] else joined
          urlunsplit ⟨u.scheme, netloc, ⟨path⟩, u.query, u.fragment⟩

/-! ### Python exceptions

Every exception the translated code can raise.  The RuntimeError values are
the two deliberate raises in ULCOPortalHandler.login; the others model a
requests.RequestException from an HTTP call, the AttributeError raised by
calling a method on None (soup.find returned no form), the TypeError raised by
subscripting None (no input named lt), the KeyError raised by subscripting a
tag lacking the requested attribute, and configparser lookup failures. -/

inductive PyError where
  | requestException
  | attributeNoneError
  | typeNoneSubscript
  | keyError (key : String)
  | noOptionError (sectionName key : String)
  | valueError
  | runtimeError (msg : String)
deriving DecidableEq, Repr

/-- The failures the source raises deliberately, as opposed to accidental
crashes on a None value: exactly the RuntimeError raises. -/
def PyError.isDeliberateRaise : PyError → Bool
  | .runtimeError _ => true
  | _ => false

/-! ### Configuration -/

/-- Model of configparser.ConfigParser as read by the program: a lookup from
section and option to an optional string value. -/
structure ConfigParser where
  lookup : String → String → Option String

/-- Model of the Python str.lower method on the ASCII strings involved in
boolean configuration values. -/
def pyLower (s : String) : String :=
  ⟨s.toList.map Char.toLower⟩

/-- The boolean strings accepted by ConfigParser.getboolean, compared after
lowercasing (the BOOLEAN_STATES table). -/
def pyParseBool (v : String) : Option Bool :=
  let lv := pyLower v
  if lv = "1" ∨ lv = "yes" ∨ lv = "true" ∨ lv = "on" then some true
  else if lv = "0" ∨ lv = "no" ∨ lv = "false" ∨ lv = "off" then some false
  else none

/-- Model of ConfigParser.getboolean with a fallback: the fallback is
returned when the option is missing, a ValueError is raised when the stored
value is not a boolean string. -/
def ConfigParser.getboolean (cfg : ConfigParser) (sec key : String)
    (fallback : Bool) : Except PyError Bool :=
  match cfg.lookup sec key with
  | none => .ok fallback
  | some v =>
      match pyParseBool v with
      | some b => .ok b
      | none => .error .valueError

/-- Model of ConfigParser.get without a fallback: raises when the option is
missing. -/
def ConfigParser.getStr (cfg : ConfigParser) (sec key : String) :
    Except PyError String :=
  match cfg.lookup sec key with
  | none => .error (.noOptionError sec key)
  | some v => .ok v

/-! ### HTML and HTTP -/

/-- An input tag as inspected by the login flow: its name and value
attributes, each possibly absent. -/
structure InputTag where
  name : Option String
  value : Option String
deriving DecidableEq, Repr

/-- A form tag: its attributes and the input tags below it, in document
order. -/
structure FormTag where
  attrs : List (String × String)
  inputs : List InputTag
deriving DecidableEq, Repr

/-- Subscripting a tag by attribute name: the first binding, none when the
attribute is absent. -/
def FormTag.attr (f : FormTag) (k : String) : Option String :=
  (f.attrs.find? (fun p => p.1 == k)).map Prod.snd

/-- Model of form.find with the input tag name and a name attribute filter:
the first input whose name attribute equals the argument. -/
def FormTag.findInput (f : FormTag) (n : String) : Option InputTag :=
  f.inputs.find? (fun i => i.name == some n)

/-- The abstract result of parsing a response body with BeautifulSoup: the
form tags of the document in order (soup.find picks the first). -/
structure HtmlDoc where
  forms : List FormTag
deriving DecidableEq, Repr

/-- An HTTP response as used by the program: the final URL after following
redirects, the body text, the status code, and the parsed document of the
body. -/
structure HttpResponse where
  url : String
  text : String
  statusCode : Nat
  doc : HtmlDoc
deriving DecidableEq, Repr

/-- Model of the requests Response.ok property: false exactly when
raise_for_status would raise, that is for status codes in [400, 600). -/
def HttpResponse.ok (r : HttpResponse) : Bool :=
  !(decide (400 ≤ r.statusCode) && decide (r.statusCode < 600))

/-- The network oracle: what each GET and each POST of one cycle returns,
where none models a raised requests.RequestException (timeout, DNS failure,
connection refused, TLS failure). -/
structure Net where
  get : String → Option HttpResponse
  post : String → List (String × String) → Option HttpResponse

/-- One outbound HTTP call, recorded in program order. -/
inductive HttpCall where
  | get (url : String)
  | post (url : String) (data : List (String × String))
deriving DecidableEq, Repr

/-- A cookie stored in the requests session cookie jar by an explicit set
call: name, value, domain, path. -/
structure Cookie where
  name : String
  value : String
  domain : String
  path : String
deriving DecidableEq, Repr

/-! ### The program -/

/-- A canary: a probe URL together with the body an unobstructed network
returns for it. -/
structure Canary where
  url : String
  expectedContent : String
deriving DecidableEq, Repr

/-- The PORTAL_DETECT_URLS table: the canary URLs and their expected
contents; random.choice selects one entry per cycle. -/
def PORTAL_DETECT_URLS : List Canary :=
  [⟨"http://detectportal.firefox.com/canonical.html",
    "<meta http-equiv=\"refresh\" content=\"0;url=https://support.mozilla.org/kb/captive-portal\"/>"⟩,
   ⟨"http://nmcheck.gnome.org/check_network_status.txt",
    "NetworkManager is online"⟩,
   ⟨"http://ping.archlinux.org/",
    "This domain is used for connectivity checking (captive portal detection)."⟩]

/-- The SSO entry point fetched by ULCOPortalHandler.login. -/
def ssoURL : String :=
  "https://auth.univ-littoral.fr/cas/login?service=https://eduspot.univ-littoral.fr/login_cas/"

/-- The outcome of one login call: its result (ok, or the exception that
propagated), the configuration as left behind, the outbound HTTP calls in
program order, and the cookies explicitly set on the fresh session. -/
structure LoginTrace where
  result : Except PyError Unit
  config : ConfigParser
  calls : List HttpCall
  cookies : List Cookie

/-- The constant fields of the credential POST besides username, password and
the lt token. -/
def eventIdFields : List (String × String) :=
  [("_eventId", "submit"), ("submit", "SE CONNECTER")]

/-- Translation of ULCOPortalHandler.login.  A fresh session is created; for
an internal account the kanet-choice cookie is set, the SSO page is fetched,
the first form of the parse is taken, the parameters dict is built in
evaluation order (config login, config password, lt extraction — a missing
form surfaces here as an AttributeError, a missing lt input as a TypeError),
the form action is resolved against the page URL and POSTed, a non-ok status
raises RuntimeError, and finally the confirmation POST goes to ../update/
resolved against the submit response URL.  For a non-internal account a
RuntimeError is raised before any HTTP call. -/
def ULCOPortalHandler.login (cfg : ConfigParser) (net : Net)
    (url portal : String) : LoginTrace :=
  match cfg.getboolean "portal.ulco" "is_internal_account" true with
  | .error e => ⟨.error e, cfg, [], []⟩
  | .ok false =>
      ⟨.error (.runtimeError "Renater accounts are not yet supported"),
       cfg, [], []⟩
  | .ok true =>
      let jar := [Cookie.mk "kanet-choice" "cas" "univ-littoral.fr" "/"]
      match net.get ssoURL with
      | none => ⟨.error .requestException, cfg, [.get ssoURL], jar⟩
      | some response =>
          match cfg.getStr "portal.ulco" "login" with
          | .error e => ⟨.error e, cfg, [.get ssoURL], jar⟩
          | .ok username =>
              match cfg.getStr "portal.ulco" "password" with
              | .error e => ⟨.error e, cfg, [.get ssoURL], jar⟩
              | .ok password =>
                  match response.doc.forms.head? with
                  | none => ⟨.error .attributeNoneError, cfg, [.get ssoURL], jar⟩
                  | some form =>
                      match form.findInput "lt" with
                      | none => ⟨.error .typeNoneSubscript, cfg, [.get ssoURL], jar⟩
                      | some ltInput =>
                          match ltInput.value with
                          | none => ⟨.error (.keyError "value"), cfg, [.get ssoURL], jar⟩
                          | some lt =>
                              let parameters :=
                                ("username", username) :: ("password", password)
                                  :: ("lt", lt) :: eventIdFields
                              match form.attr "action" with
                              | none => ⟨.error (.keyError "action"), cfg, [.get ssoURL], jar⟩
                              | some action =>
                                  let submitUrl := urljoin response.url action
                                  match net.post submitUrl parameters with
                                  | none =>
                                      ⟨.error .requestException, cfg,
                                       [.get ssoURL, .post submitUrl parameters], jar⟩
                                  | some response2 =>
                                      if !response2.ok then
                                        ⟨.error (.runtimeError "Invalid login or password"),
                                         cfg,
                                         [.get ssoURL, .post submitUrl parameters], jar⟩
                                      else
                                        let confirmUrl := urljoin response2.url "../update/"
                                        let confirmData := [("httpredirect", "False")]
                                        match net.post confirmUrl confirmData with
                                        | none =>
                                            ⟨.error .requestException, cfg,
                                             [.get ssoURL, .post submitUrl parameters,
                                              .post confirmUrl confirmData], jar⟩
                                        | some _ =>
                                            ⟨.ok (), cfg,
                                             [.get ssoURL, .post submitUrl parameters,
                                              .post confirmUrl confirmData], jar⟩

/-- The registered handler identities: only the ULCO handler exists. -/
inductive HandlerId where
  | ulco
deriving DecidableEq, Repr

/-- Translation of get_portal_handler: returns a handler based on the portal
contents.  The body ignores both arguments and returns the ULCO handler. -/
def get_portal_handler (url portal : String) : HandlerId :=
  HandlerId.ulco

/-- Translation of the module-level login function: select a portal handler
for the detected portal, construct it with the configuration, and run its
login method on the same url and portal body. -/
def login (cfg : ConfigParser) (net : Net) (url portal : String) : LoginTrace :=
  match get_portal_handler url portal with
  | .ulco => ULCOPortalHandler.login cfg net url portal

/-- What one check_online call reports when it returns normally. -/
inductive CycleOutcome where
  | offline
  | online
  | loggedIn
deriving DecidableEq, Repr

/-- The outcome of one check_online call: the normal outcome or the exception
that propagated out, the configuration left behind, and the outbound HTTP
calls of the cycle in order. -/
structure CycleTrace where
  result : Except PyError CycleOutcome
  config : ConfigParser
  calls : List HttpCall

/-- Translation of check_online, with the canary chosen by random.choice
passed as a parameter.  A transport failure of the probe GET is caught and
reported as offline; a body that strips to the expected content is online;
any other body is handed, with the response URL after redirects and the
untrimmed text, to the login dispatch, whose exceptions propagate. -/
def check_online (cfg : ConfigParser) (canary : Canary) (net : Net) :
    CycleTrace :=
  match net.get canary.url with
  | none => ⟨.ok .offline, cfg, [.get canary.url]⟩
  | some result =>
      if pyStrip result.text = canary.expectedContent then
        ⟨.ok .online, cfg, [.get canary.url]⟩
      else
        let t := login cfg net result.url result.text
        ⟨t.result.map (fun _ => .loggedIn), t.config, .get canary.url :: t.calls⟩

/-- One iteration of the while-True loop of main: check_online runs, and the
process goes on to sleep and schedule the next cycle exactly when no
exception propagated out of check_online; an uncaught exception ends the
process. -/
def mainLoopContinues (cfg : ConfigParser) (canary : Canary) (net : Net) :
    Bool :=
  match (check_online cfg canary net).result with
  | .ok _ => true
  | .error _ => false

/-! ### Concrete fixtures for witnesses and counterexamples -/

/-- A configuration with ULCO credentials and no is_internal_account option
(the getboolean fallback true applies). -/
def cfgULCO : ConfigParser :=
  ⟨fun sec key =>
    if sec = "portal.ulco" then
      if key = "login" then some "alice"
      else if key = "password" then some "secret"
      else none
    else none⟩

/-- A configuration whose is_internal_account option is the string false. -/
def cfgFederated : ConfigParser :=
  ⟨fun sec key =>
    if sec = "portal.ulco" ∧ key = "is_internal_account" then some "false"
    else none⟩

/-- The gnome connectivity canary. -/
def canaryEx : Canary :=
  ⟨"http://nmcheck.gnome.org/check_network_status.txt",
   "NetworkManager is online"⟩

/-- A CAS login form with an lt token and a relative action. -/
def casForm : FormTag :=
  ⟨[("method", "post"), ("action", "login_cas")],
   [⟨some "lt", some "LT-12345"⟩]⟩

/-- The SSO page response carrying the CAS form. -/
def casPage : HttpResponse :=
  ⟨"https://auth.univ-littoral.fr/cas/login",
   "<html><form>...</form></html>", 200, ⟨[casForm]⟩⟩

/-- An SSO page response carrying no form at all. -/
def noFormPage : HttpResponse :=
  ⟨"https://auth.univ-littoral.fr/cas/login",
   "<html>maintenance</html>", 200, ⟨[]⟩⟩

/-- The canary response produced by the ULCO captive portal: redirected URL
and a portal body instead of the expected content. -/
def portalResponse : HttpResponse :=
  ⟨"https://eduspot.univ-littoral.fr/",
   "<title>ULCO Portail Captif</title>", 200, ⟨[]⟩⟩

/-- A canary response intercepted by some unknown portal: neither the
expected content nor anything matching the ULCO criteria. -/
def unknownPortalResponse : HttpResponse :=
  ⟨"http://portal.example.com/welcome",
   "<title>Some Other Portal</title>", 200, ⟨[]⟩⟩

/-- The canary response of an unobstructed network: the expected content
plus trailing whitespace. -/
def onlineResponse : HttpResponse :=
  ⟨canaryEx.url, "NetworkManager is online\n", 200, ⟨[]⟩⟩

/-- A 401 response, as returned by the CAS submit endpoint on bad
credentials. -/
def resp401 : HttpResponse :=
  ⟨"https://auth.univ-littoral.fr/cas/login", "denied", 401, ⟨[]⟩⟩

/-- A 200 response from the submit endpoint. -/
def resp200 : HttpResponse :=
  ⟨"https://eduspot.univ-littoral.fr/login_cas/", "welcome", 200, ⟨[]⟩⟩

/-- A network where every request fails at the transport level. -/
def netDown : Net := ⟨fun _ => none, fun _ _ => none⟩

/-- A network where the canary probe succeeds with the expected content. -/
def netOnline : Net :=
  ⟨fun u => if u = canaryEx.url then some onlineResponse else none,
   fun _ _ => none⟩

/-- A network behind the ULCO portal whose submit endpoint rejects the
credentials with a 401. -/
def netBadCreds : Net :=
  ⟨fun u =>
    if u = canaryEx.url then some portalResponse
    else if u = ssoURL then some casPage
    else none,
   fun _ _ => some resp401⟩

/-- A network behind the ULCO portal where every POST succeeds with a 200. -/
def netGoodCreds : Net :=
  ⟨fun u =>
    if u = canaryEx.url then some portalResponse
    else if u = ssoURL then some casPage
    else none,
   fun _ _ => some resp200⟩

/-- A network behind the ULCO portal whose SSO page carries no form. -/
def netNoForm : Net :=
  ⟨fun u =>
    if u = canaryEx.url then some portalResponse
    else if u = ssoURL then some noFormPage
    else none,
   fun _ _ => none⟩

/-- A network behind an unknown portal, where the SSO fetch then fails at
the transport level. -/
def netUnknownPortal : Net :=
  ⟨fun u =>
    if u = canaryEx.url then some unknownPortalResponse
    else none,
   fun _ _ => none⟩

/-! ### Claims -/

/-- C1, counterexample.  The claim that no failure outcome of a cycle ends
the process is false: behind the ULCO portal with rejected credentials, the
cycle raises RuntimeError with the invalid-login message, the exception
propagates out of check_online, and the while-True loop of main does not
reach its next iteration — the process terminates. -/
theorem c1_counterexample :
    (check_online cfgULCO canaryEx netBadCreds).result =
      Except.error (.runtimeError "Invalid login or password") ∧
    mainLoopContinues cfgULCO canaryEx netBadCreds = false :=
  ⟨rfl, rfl⟩

/-- C1, amended.  Only the Unreachable outcome is handled: when the probe GET
fails at the transport level, check_online catches the exception, reports
offline, and the main loop goes on to schedule the next cycle; the failure
outcomes raised inside login propagate uncaught and end the process. -/
theorem c1_offline_cycle_continues (cfg : ConfigParser) (canary : Canary)
    (net : Net) (h : net.get canary.url = none) :
    (check_online cfg canary net).result = Except.ok .offline ∧
    mainLoopContinues cfg canary net = true := by
  constructor
  · unfold check_online
    rw [h]
  · unfold mainLoopContinues check_online
    rw [h]

/-- C1, witness for the amended theorem at a fully failing network. -/
theorem c1_offline_cycle_continues_witness :
    (check_online cfgULCO canaryEx netDown).result = Except.ok .offline ∧
    mainLoopContinues cfgULCO canaryEx netDown = true :=
  c1_offline_cycle_continues cfgULCO canaryEx netDown rfl

/-- C2.  When the probe GET raises a transport-level failure, check_online
returns the offline outcome, the configuration is untouched, and the probe
GET is the only HTTP call of the cycle — no login is attempted. -/
theorem c2_transport_failure_no_login (cfg : ConfigParser) (canary : Canary)
    (net : Net) (h : net.get canary.url = none) :
    check_online cfg canary net =
      ⟨Except.ok .offline, cfg, [.get canary.url]⟩ := by
  unfold check_online
  rw [h]

/-- C2, witness at a fully failing network. -/
theorem c2_transport_failure_no_login_witness :
    check_online cfgULCO canaryEx netDown =
      ⟨Except.ok .offline, cfgULCO, [.get canaryEx.url]⟩ :=
  c2_transport_failure_no_login cfgULCO canaryEx netDown rfl

/-- C3.  On a successful probe response: when the stripped body equals the
expected content of the selected canary, the cycle reports online with no
further HTTP call; on any other body the cycle is exactly the probe GET
followed by the login dispatch applied to the response URL after redirects
and the untrimmed body. -/
theorem c3_probe_comparison (cfg : ConfigParser) (canary : Canary) (net : Net)
    (r : HttpResponse) (h : net.get canary.url = some r) :
    (pyStrip r.text = canary.expectedContent →
       check_online cfg canary net =
         ⟨Except.ok .online, cfg, [.get canary.url]⟩) ∧
    (pyStrip r.text ≠ canary.expectedContent →
       check_online cfg canary net =
         ⟨(login cfg net r.url r.text).result.map (fun _ => .loggedIn),
          (login cfg net r.url r.text).config,
          .get canary.url :: (login cfg net r.url r.text).calls⟩) := by
  unfold check_online
  rw [h]
  dsimp only
  constructor
  · intro he
    rw [if_pos he]
  · intro he
    rw [if_neg he]

/-- C3, witness at a network returning the expected content with trailing
whitespace. -/
theorem c3_probe_comparison_witness :
    (pyStrip onlineResponse.text = canaryEx.expectedContent →
       check_online cfgULCO canaryEx netOnline =
         ⟨Except.ok .online, cfgULCO, [.get canaryEx.url]⟩) ∧
    (pyStrip onlineResponse.text ≠ canaryEx.expectedContent →
       check_online cfgULCO canaryEx netOnline =
         ⟨(login cfgULCO netOnline onlineResponse.url onlineResponse.text).result.map
            (fun _ => .loggedIn),
          (login cfgULCO netOnline onlineResponse.url onlineResponse.text).config,
          .get canaryEx.url ::
            (login cfgULCO netOnline onlineResponse.url onlineResponse.text).calls⟩) :=
  c3_probe_comparison cfgULCO canaryEx netOnline onlineResponse rfl

/-- C4, counterexample.  get_portal_handler never answers that no signature
matched: on a body matching none of the ULCO criteria it still returns the
ULCO handler, and the cycle goes on to attempt a login (here the SSO fetch,
which fails at the transport level) instead of reporting an unknown-portal
outcome. -/
theorem c4_counterexample :
    get_portal_handler unknownPortalResponse.url unknownPortalResponse.text =
      HandlerId.ulco ∧
    (check_online cfgULCO canaryEx netUnknownPortal).calls =
      [.get canaryEx.url, .get ssoURL] ∧
    (check_online cfgULCO canaryEx netUnknownPortal).result =
      Except.error .requestException :=
  ⟨rfl, rfl, rfl⟩

/-- C4, amended.  There is no unmatched case: for every mismatching probe
body, get_portal_handler returns the ULCO handler and the cycle dispatches
the (finalURL, body) pair to the ULCO login flow. -/
theorem c4_always_dispatches_ulco (cfg : ConfigParser) (canary : Canary)
    (net : Net) (r : HttpResponse) (h : net.get canary.url = some r)
    (hm : pyStrip r.text ≠ canary.expectedContent) :
    get_portal_handler r.url r.text = HandlerId.ulco ∧
    check_online cfg canary net =
      ⟨(ULCOPortalHandler.login cfg net r.url r.text).result.map
         (fun _ => .loggedIn),
       (ULCOPortalHandler.login cfg net r.url r.text).config,
       .get canary.url ::
         (ULCOPortalHandler.login cfg net r.url r.text).calls⟩ := by
  refine ⟨rfl, ?_⟩
  unfold check_online
  rw [h]
  dsimp only
  rw [if_neg hm]
  rfl

/-- C4, witness for the amended theorem behind an unknown portal. -/
theorem c4_always_dispatches_ulco_witness :
    get_portal_handler unknownPortalResponse.url unknownPortalResponse.text =
      HandlerId.ulco ∧
    check_online cfgULCO canaryEx netUnknownPortal =
      ⟨(ULCOPortalHandler.login cfgULCO netUnknownPortal
          unknownPortalResponse.url unknownPortalResponse.text).result.map
         (fun _ => .loggedIn),
       (ULCOPortalHandler.login cfgULCO netUnknownPortal
          unknownPortalResponse.url unknownPortalResponse.text).config,
       .get canaryEx.url ::
         (ULCOPortalHandler.login cfgULCO netUnknownPortal
            unknownPortalResponse.url unknownPortalResponse.text).calls⟩ :=
  c4_always_dispatches_ulco cfgULCO canaryEx netUnknownPortal
    unknownPortalResponse rfl (by decide)

/-- C5.  When the configuration marks the account as not internal, login
raises the unsupported-accounts RuntimeError with an empty call list: no HTTP
request is made, and the result is an error rather than a silent no-op. -/
theorem c5_federated_unsupported (cfg : ConfigParser) (net : Net)
    (url portal : String)
    (h : cfg.getboolean "portal.ulco" "is_internal_account" true =
      Except.ok false) :
    ULCOPortalHandler.login cfg net url portal =
      ⟨Except.error (.runtimeError "Renater accounts are not yet supported"),
       cfg, [], []⟩ := by
  unfold ULCOPortalHandler.login
  rw [h]

/-- C5, witness at a configuration with the federated flag set. -/
theorem c5_federated_unsupported_witness :
    ULCOPortalHandler.login cfgFederated netDown "u" "p" =
      ⟨Except.error (.runtimeError "Renater accounts are not yet supported"),
       cfgFederated, [], []⟩ :=
  c5_federated_unsupported cfgFederated netDown "u" "p" rfl

/-- C6, counterexample.  On an SSO page with no form, login does not produce
a typed reported ProtocolMismatch outcome: it raises the AttributeError of
calling a method on None, which is not one of the deliberate raises of the
source, and the exception propagates out of the cycle and ends the process
rather than being reported. -/
theorem c6_counterexample :
    (ULCOPortalHandler.login cfgULCO netNoForm portalResponse.url
        portalResponse.text).result = Except.error .attributeNoneError ∧
    PyError.isDeliberateRaise .attributeNoneError = false ∧
    mainLoopContinues cfgULCO canaryEx netNoForm = false :=
  ⟨rfl, rfl, rfl⟩

/-- C6, amended.  When the login form is absent the attempt aborts with an
untyped AttributeError, and when the form is present but carries no input
named lt it aborts with an untyped TypeError; in both cases the SSO fetch is
the only HTTP call (no credential POST) and no retry happens within the
cycle, but the failure is an uncaught exception, not a typed reported
outcome. -/
theorem c6_missing_form_or_token (cfg : ConfigParser) (net : Net)
    (url portal username password : String)
    (hacct : cfg.getboolean "portal.ulco" "is_internal_account" true =
      Except.ok true)
    (hu : cfg.getStr "portal.ulco" "login" = Except.ok username)
    (hp : cfg.getStr "portal.ulco" "password" = Except.ok password)
    (r : HttpResponse) (hr : net.get ssoURL = some r) :
    (r.doc.forms.head? = none →
       (ULCOPortalHandler.login cfg net url portal).result =
         Except.error .attributeNoneError ∧
       (ULCOPortalHandler.login cfg net url portal).calls = [.get ssoURL]) ∧
    (∀ form, r.doc.forms.head? = some form → form.findInput "lt" = none →
       (ULCOPortalHandler.login cfg net url portal).result =
         Except.error .typeNoneSubscript ∧
       (ULCOPortalHandler.login cfg net url portal).calls = [.get ssoURL]) := by
  unfold ULCOPortalHandler.login
  rw [hacct]
  dsimp only
  rw [hr]
  dsimp only
  rw [hu]
  dsimp only
  rw [hp]
  dsimp only
  constructor
  · intro hf
    rw [hf]
    exact ⟨rfl, rfl⟩
  · intro form hf hlt
    rw [hf]
    dsimp only
    rw [hlt]
    exact ⟨rfl, rfl⟩

/-- C6, witness for the amended theorem at the formless SSO page. -/
theorem c6_missing_form_or_token_witness :
    (noFormPage.doc.forms.head? = none →
       (ULCOPortalHandler.login cfgULCO netNoForm "u" "p").result =
         Except.error .attributeNoneError ∧
       (ULCOPortalHandler.login cfgULCO netNoForm "u" "p").calls =
         [.get ssoURL]) ∧
    (∀ form, noFormPage.doc.forms.head? = some form →
       form.findInput "lt" = none →
       (ULCOPortalHandler.login cfgULCO netNoForm "u" "p").result =
         Except.error .typeNoneSubscript ∧
       (ULCOPortalHandler.login cfgULCO netNoForm "u" "p").calls =
         [.get ssoURL]) :=
  c6_missing_form_or_token cfgULCO netNoForm "u" "p" "alice" "secret"
    rfl rfl rfl noFormPage rfl

/-- C7.  Once the credential POST has returned: a non-success status raises
the invalid-login RuntimeError and the cycle makes no further call — the
session-confirmation POST does not happen; a success status proceeds to
exactly that confirmation POST, aimed at ../update/ resolved against the
submit response URL. -/
theorem c7_submit_status_decides (cfg : ConfigParser) (net : Net)
    (url portal username password lt a : String) (form : FormTag)
    (ltInput : InputTag) (r r2 : HttpResponse)
    (hacct : cfg.getboolean "portal.ulco" "is_internal_account" true =
      Except.ok true)
    (hu : cfg.getStr "portal.ulco" "login" = Except.ok username)
    (hp : cfg.getStr "portal.ulco" "password" = Except.ok password)
    (hr : net.get ssoURL = some r)
    (hform : r.doc.forms.head? = some form)
    (hlt : form.findInput "lt" = some ltInput)
    (hval : ltInput.value = some lt)
    (hact : form.attr "action" = some a)
    (hpost : net.post (urljoin r.url a)
        (("username", username) :: ("password", password) :: ("lt", lt)
          :: eventIdFields) = some r2) :
    (r2.ok = false →
       (ULCOPortalHandler.login cfg net url portal).result =
         Except.error (.runtimeError "Invalid login or password") ∧
       (ULCOPortalHandler.login cfg net url portal).calls =
         [.get ssoURL,
          .post (urljoin r.url a)
            (("username", username) :: ("password", password) :: ("lt", lt)
              :: eventIdFields)]) ∧
    (r2.ok = true →
       (ULCOPortalHandler.login cfg net url portal).calls =
         [.get ssoURL,
          .post (urljoin r.url a)
            (("username", username) :: ("password", password) :: ("lt", lt)
              :: eventIdFields),
          .post (urljoin r2.url "../update/") [("httpredirect", "False")]]) := by
  unfold ULCOPortalHandler.login
  rw [hacct]
  dsimp only
  rw [hr]
  dsimp only
  rw [hu]
  dsimp only
  rw [hp]
  dsimp only
  rw [hform]
  dsimp only
  rw [hlt]
  dsimp only
  rw [hval]
  dsimp only
  rw [hact]
  dsimp only
  rw [hpost]
  dsimp only
  constructor
  · intro hok
    rw [hok]
    exact ⟨rfl, rfl⟩
  · intro hok
    rw [hok]
    cases hconf : net.post (urljoin r2.url "../update/")
        [("httpredirect", "False")] with
    | none => rfl
    | some rc => rfl

/-- C7, witness at the portal network rejecting the credentials with 401. -/
theorem c7_submit_status_decides_witness :
    (resp401.ok = false →
       (ULCOPortalHandler.login cfgULCO netBadCreds "u" "p").result =
         Except.error (.runtimeError "Invalid login or password") ∧
       (ULCOPortalHandler.login cfgULCO netBadCreds "u" "p").calls =
         [.get ssoURL,
          .post (urljoin casPage.url "login_cas")
            (("username", "alice") :: ("password", "secret")
              :: ("lt", "LT-12345") :: eventIdFields)]) ∧
    (resp401.ok = true →
       (ULCOPortalHandler.login cfgULCO netBadCreds "u" "p").calls =
         [.get ssoURL,
          .post (urljoin casPage.url "login_cas")
            (("username", "alice") :: ("password", "secret")
              :: ("lt", "LT-12345") :: eventIdFields),
          .post (urljoin resp401.url "../update/")
            [("httpredirect", "False")]]) :=
  c7_submit_status_decides cfgULCO netBadCreds "u" "p" "alice" "secret"
    "LT-12345" "login_cas" casForm ⟨some "lt", some "LT-12345"⟩ casPage resp401
    rfl rfl rfl rfl rfl rfl rfl rfl rfl

/-- C8.  The credential POST — the second HTTP call of the flow, recorded
whatever the POST returns — is aimed at the form action resolved against the
URL of the fetched page with the urljoin algorithm; the two closing conjuncts
exhibit the resolution on a relative and on an absolute action value. -/
theorem c8_action_resolved_against_page (cfg : ConfigParser) (net : Net)
    (url portal username password lt a : String) (form : FormTag)
    (ltInput : InputTag) (r : HttpResponse)
    (hacct : cfg.getboolean "portal.ulco" "is_internal_account" true =
      Except.ok true)
    (hu : cfg.getStr "portal.ulco" "login" = Except.ok username)
    (hp : cfg.getStr "portal.ulco" "password" = Except.ok password)
    (hr : net.get ssoURL = some r)
    (hform : r.doc.forms.head? = some form)
    (hlt : form.findInput "lt" = some ltInput)
    (hval : ltInput.value = some lt)
    (hact : form.attr "action" = some a) :
    (ULCOPortalHandler.login cfg net url portal).calls[1]? =
      some (.post (urljoin r.url a)
        (("username", username) :: ("password", password) :: ("lt", lt)
          :: eventIdFields)) ∧
    urljoin "https://auth.univ-littoral.fr/cas/login" "../login_cas/" =
      "https://auth.univ-littoral.fr/login_cas/" ∧
    urljoin "https://auth.univ-littoral.fr/cas/login"
        "https://eduspot.univ-littoral.fr/login_cas/" =
      "https://eduspot.univ-littoral.fr/login_cas/" := by
  refine ⟨?_, rfl, rfl⟩
  unfold ULCOPortalHandler.login
  rw [hacct]
  dsimp only
  rw [hr]
  dsimp only
  rw [hu]
  dsimp only
  rw [hp]
  dsimp only
  rw [hform]
  dsimp only
  rw [hlt]
  dsimp only
  rw [hval]
  dsimp only
  rw [hact]
  dsimp only
  cases hpost : net.post (urljoin r.url a)
      (("username", username) :: ("password", password) :: ("lt", lt)
        :: eventIdFields) with
  | none => rfl
  | some r2 =>
      dsimp only
      cases hok : r2.ok with
      | false => rfl
      | true =>
          cases hconf : net.post (urljoin r2.url "../update/")
              [("httpredirect", "False")] with
          | none => rfl
          | some rc => rfl

/-- C8, witness at the portal network, where the CAS form action login_cas is
relative and resolves to the sibling path of the login page. -/
theorem c8_action_resolved_against_page_witness :
    (ULCOPortalHandler.login cfgULCO netBadCreds "u" "p").calls[1]? =
      some (.post (urljoin casPage.url "login_cas")
        (("username", "alice") :: ("password", "secret")
          :: ("lt", "LT-12345") :: eventIdFields)) ∧
    urljoin "https://auth.univ-littoral.fr/cas/login" "../login_cas/" =
      "https://auth.univ-littoral.fr/login_cas/" ∧
    urljoin "https://auth.univ-littoral.fr/cas/login"
        "https://eduspot.univ-littoral.fr/login_cas/" =
      "https://eduspot.univ-littoral.fr/login_cas/" :=
  c8_action_resolved_against_page cfgULCO netBadCreds "u" "p" "alice"
    "secret" "LT-12345" "login_cas" casForm ⟨some "lt", some "LT-12345"⟩
    casPage rfl rfl rfl rfl rfl rfl rfl rfl

/-- C9.  Whatever the configuration, the network, and the input pair, a login
run hands back the configuration it was given: the handler reads credential
options but the configuration mapping left in the trace is the one passed
in, on every control path. -/
theorem c9_config_unchanged (cfg : ConfigParser) (net : Net)
    (url portal : String) :
    (ULCOPortalHandler.login cfg net url portal).config = cfg := by
  unfold ULCOPortalHandler.login
  cases cfg.getboolean "portal.ulco" "is_internal_account" true with
  | error e => rfl
  | ok b =>
    cases b with
    | false => rfl
    | true =>
      dsimp only
      cases net.get ssoURL with
      | none => rfl
      | some response =>
        dsimp only
        cases cfg.getStr "portal.ulco" "login" with
        | error e => rfl
        | ok username =>
          dsimp only
          cases cfg.getStr "portal.ulco" "password" with
          | error e => rfl
          | ok password =>
            dsimp only
            cases response.doc.forms.head? with
            | none => rfl
            | some form =>
              dsimp only
              cases form.findInput "lt" with
              | none => rfl
              | some ltInput =>
                dsimp only
                cases ltInput.value with
                | none => rfl
                | some lt =>
                  dsimp only
                  cases form.attr "action" with
                  | none => rfl
                  | some action =>
                    dsimp only
                    cases net.post (urljoin response.url action)
                        (("username", username) :: ("password", password)
                          :: ("lt", lt) :: eventIdFields) with
                    | none => rfl
                    | some response2 =>
                      dsimp only
                      cases response2.ok with
                      | false => rfl
                      | true =>
                        cases net.post (urljoin response2.url "../update/")
                            [("httpredirect", "False")] with
                        | none => rfl
                        | some rc => rfl

/-- C10.  get_portal_handler is a constant function: every input, whether or
not it matches the ULCO body or URL criteria, yields the ULCO handler, and
the login dispatch on any input runs exactly the ULCO login flow. -/
theorem c10_constant_dispatch (cfg : ConfigParser) (net : Net)
    (url portal : String) :
    get_portal_handler url portal = HandlerId.ulco ∧
    login cfg net url portal = ULCOPortalHandler.login cfg net url portal :=
  ⟨rfl, rfl⟩

end Autologin
